import Mathlib

/-!
Verification development for the visa-slot alert bot (src/bot.py).

The Python source is shallow-embedded below: each Lean definition mirrors a
function or code block of `bot.py`, keeping the source's names where Lean
allows it.  Strings stay strings, Python `Optional[T]` becomes `Option T`,
Python dicts used as records become Lean structures, and the network fetch
loop becomes a function over a script of per-attempt HTTP responses.
-/

namespace VisaBot

/-- Embeds the `VisaSlot` dataclass (bot.py lines 73-87). -/
structure VisaSlot where
  location : String
  visa_type : String
  last_updated : String
  earliest_date : String
  slots_available : String
deriving DecidableEq, Repr

/-- Embeds `VisaSlot.is_available` (bot.py lines 82-87):
`slots_available != "0" and earliest_date not in ["N/A", "", "No Appointments Available"]`. -/
def VisaSlot.is_available (s : VisaSlot) : Bool :=
  s.slots_available != "0" &&
  !(["N/A", "", "No Appointments Available"].contains s.earliest_date)

/-- Embeds the `UserPreferences` dataclass (bot.py lines 100-109). -/
structure UserPreferences where
  visa_type : Option String := none
  consulate_city : Option String := none
  consulate_type : Option String := none
  interval : Option Nat := none
  year_filter : Option (List String) := none
  no_slot_alert_sent : Bool := false
  last_notified_slots : List String := []
deriving DecidableEq, Repr

/-- Python truthiness of an `Optional[str]`: `None` and `""` are falsy. -/
def strTruthy (s : Option String) : Bool :=
  match s with
  | none => false
  | some str => !str.isEmpty

/-- Embeds `UserPreferences.is_complete` (bot.py lines 111-118):
`all([visa_type, consulate_city, consulate_type, interval is not None])`. -/
def UserPreferences.is_complete (p : UserPreferences) : Bool :=
  strTruthy p.visa_type && strTruthy p.consulate_city &&
  strTruthy p.consulate_type && p.interval.isSome

/-- Embeds `UserPreferences.get_full_consulate` (bot.py lines 120-124). -/
def UserPreferences.get_full_consulate (p : UserPreferences) : String :=
  if strTruthy p.consulate_city && strTruthy p.consulate_type then
    p.consulate_city.getD "" ++ " " ++ p.consulate_type.getD ""
  else "Not set"

/-- The dictionary produced by `UserPreferences.to_dict` (bot.py lines 135-145)
and consumed by `from_dict`.  An outer `none` on a field means the key is
absent from the dict; `to_dict` always writes every key. -/
structure PrefDict where
  visa_type : Option (Option String)
  consulate_city : Option (Option String)
  consulate_type : Option (Option String)
  interval : Option (Option Nat)
  year_filter : Option (Option (List String))
  no_slot_alert_sent : Option Bool
  last_notified_slots : Option (List String)
deriving DecidableEq, Repr

/-- Embeds `UserPreferences.to_dict` (bot.py lines 135-145): every field is
written under its key. -/
def UserPreferences.to_dict (p : UserPreferences) : PrefDict :=
  { visa_type := some p.visa_type
    consulate_city := some p.consulate_city
    consulate_type := some p.consulate_type
    interval := some p.interval
    year_filter := some p.year_filter
    no_slot_alert_sent := some p.no_slot_alert_sent
    last_notified_slots := some p.last_notified_slots }

/-- Embeds `UserPreferences.from_dict` (bot.py lines 147-158): `data.get(key)`
returns `None` when the key is absent; `no_slot_alert_sent` and
`last_notified_slots` have explicit defaults `False` and `[]`. -/
def UserPreferences.from_dict (d : PrefDict) : UserPreferences :=
  { visa_type := d.visa_type.getD none
    consulate_city := d.consulate_city.getD none
    consulate_type := d.consulate_type.getD none
    interval := d.interval.getD none
    year_filter := d.year_filter.getD none
    no_slot_alert_sent := d.no_slot_alert_sent.getD false
    last_notified_slots := d.last_notified_slots.getD [] }

/-- Embeds the `visa_mappings` dict inside `visa_matches_site`
(bot.py lines 264-273). -/
def visa_mappings : String → Option (List String)
  | "B1" => some ["B1", "B1/B2"]
  | "B2" => some ["B2", "B1/B2"]
  | "B1/B2" => some ["B1/B2"]
  | "F-1" => some ["F1", "F1/F2", "F-1"]
  | "H-1B" => some ["H1B", "H-1B", "H1", "H-1"]
  | "J-1" => some ["J1", "J-1"]
  | "L-1" => some ["L1", "L-1"]
  | "O-1" => some ["O1", "O-1"]
  | _ => none

/-- Python `str.upper()`: uppercase every character. -/
def pyUpper (s : String) : String := String.mk (s.data.map Char.toUpper)

/-- Python `str.strip()`: drop leading and trailing whitespace. -/
def pyStrip (s : String) : String :=
  String.mk (((s.data.dropWhile Char.isWhitespace).reverse.dropWhile
    Char.isWhitespace).reverse)

/-- Python `str.endswith(suffix)`. -/
def pyEndsWith (s suff : String) : Bool := suff.data.isSuffixOf s.data

/-- Embeds `visa_matches_site` (bot.py lines 259-278): both sides are
uppercased and trimmed; a mapped user preference matches any site label in
its mapping list, an unmapped one falls back to exact equality. -/
def visa_matches_site (user_pref site_visa : String) : Bool :=
  let u := pyStrip (pyUpper user_pref)
  let s := pyStrip (pyUpper site_visa)
  match visa_mappings u with
  | some allowed => allowed.contains s
  | none => u == s

/-- Python substring membership `needle in hay`. -/
def strContainsSub (hay needle : String) : Bool :=
  (List.range (hay.toList.length + 1)).any
    (fun i => needle.toList.isPrefixOf (hay.toList.drop i))

/-- Embeds `year_matches` (bot.py lines 281-285).  `date_str` is an
`Option String` because Python allows `None` (`date_str in ["N/A", "", None]`);
`not year_filter` is true for both `None` and the empty list. -/
def year_matches (date_str : Option String) (year_filter : Option (List String)) : Bool :=
  if (match year_filter with | none => true | some yf => yf.isEmpty) then true
  else if date_str == some "N/A" || date_str == some "" || date_str == none then true
  else (year_filter.getD []).any (fun y => strContainsSub (date_str.getD "") y)

/-- Python list slice `lst[-n:]`: the last `n` elements (the whole list when
it is shorter than `n`). -/
def lastN (n : Nat) (l : List String) : List String :=
  l.drop (l.length - n)

/-- Whether `visa_matches_site(preferences.visa_type, slot.visa_type)` holds
(bot.py line 556). -/
def visaOk (p : UserPreferences) (slot : VisaSlot) : Bool :=
  visa_matches_site (p.visa_type.getD "") slot.visa_type

/-- The location-bucketing condition of `SlotFilter.filter_slots`
(bot.py lines 559-569): with city "ALL" a slot is preferred when its trimmed
location ends with the consulate type, otherwise when the location equals the
full consulate string. -/
def bucketMatches (p : UserPreferences) (slot : VisaSlot) : Bool :=
  if p.consulate_city == some "ALL" then
    pyEndsWith (pyStrip slot.location) (p.consulate_type.getD "")
  else
    slot.location == p.get_full_consulate

/-- The bucketing loop of `SlotFilter.filter_slots` (bot.py lines 555-569):
slots failing the visa check are dropped; the rest go to
`matching_preference` or `other_locations` by `bucketMatches`, preserving
order. -/
def partitionSlots (all_slots : List VisaSlot) (p : UserPreferences) :
    List VisaSlot × List VisaSlot :=
  match all_slots with
  | [] => ([], [])
  | slot :: rest =>
    let (m, o) := partitionSlots rest p
    if !(visaOk p slot) then (m, o)
    else if bucketMatches p slot then (slot :: m, o)
    else (m, slot :: o)

/-- Embeds `SlotFilter.filter_slots` (bot.py lines 547-581): bucket by
preference, then keep in each bucket only slots that are available and pass
the year filter. -/
def filter_slots (all_slots : List VisaSlot) (p : UserPreferences) :
    List VisaSlot × List VisaSlot :=
  let buckets := partitionSlots all_slots p
  (buckets.1.filter (fun s => s.is_available &&
      year_matches (some s.earliest_date) p.year_filter),
   buckets.2.filter (fun s => s.is_available &&
      year_matches (some s.earliest_date) p.year_filter))

/-- The dedup key `f"{slot.location}_{slot.earliest_date}"` (bot.py line 663). -/
def slot_key (slot : VisaSlot) : String :=
  slot.location ++ "_" ++ slot.earliest_date

/-- The per-slot dedup update of `AlertSystem._check_slots`
(bot.py lines 663-670): report new iff the key is absent from the history;
on new, append the key and keep the last 50 entries. -/
def dedupStep (history : List String) (key : String) : Bool × List String :=
  let isNew := !(history.contains key)
  (isNew, if isNew then lastN 50 (history ++ [key]) else history)

/-- One step of the notify loop over `matching_open` (bot.py lines 662-672):
threads the preference record through `dedupStep` and records the alert sent
for the slot together with its newness flag. -/
def dedupFold (st : UserPreferences × List (VisaSlot × Bool)) (slot : VisaSlot) :
    UserPreferences × List (VisaSlot × Bool) :=
  let d := dedupStep st.1.last_notified_slots (slot_key slot)
  ({ st.1 with last_notified_slots := d.2 }, st.2 ++ [(slot, d.1)])

/-- Observable outcome of one `AlertSystem._check_slots` cycle: which of the
three one-shot notices was sent, the per-slot alerts sent, and the updated
preference record. -/
structure CheckOutcome where
  sentCouldNotFetch : Bool
  slotAlerts : List (VisaSlot × Bool)
  sentAlternatives : Bool
  sentNoSlots : Bool
  prefs : UserPreferences
deriving DecidableEq, Repr

/-- Embeds `AlertSystem._check_slots` (bot.py lines 639-677) given the slots
the fetch returned this cycle.  Empty fetch data sends at most one
"could not fetch" notice; a non-empty `matching_open` clears
`no_slot_alert_sent` and sends one alert per matching slot through the dedup
state; otherwise the alternatives or no-slots notice is sent, gated by
`no_slot_alert_sent` (bot.py lines 679-715). -/
def check_slots (p : UserPreferences) (all_slots : List VisaSlot) : CheckOutcome :=
  if all_slots.isEmpty then
    if !p.no_slot_alert_sent then
      ⟨true, [], false, false, { p with no_slot_alert_sent := true }⟩
    else ⟨false, [], false, false, p⟩
  else
    let fr := filter_slots all_slots p
    if !fr.1.isEmpty then
      let res := fr.1.foldl dedupFold ({ p with no_slot_alert_sent := false }, [])
      ⟨false, res.2, false, false, res.1⟩
    else if !fr.2.isEmpty then
      if !p.no_slot_alert_sent then
        ⟨false, [], true, false, { p with no_slot_alert_sent := true }⟩
      else ⟨false, [], false, false, p⟩
    else
      if !p.no_slot_alert_sent then
        ⟨false, [], false, true, { p with no_slot_alert_sent := true }⟩
      else ⟨false, [], false, false, p⟩

/-! ### The fetch retry loop -/

/-- One upstream HTTP response as `VisaSlotsScraper.fetch_slots` would
observe it: its status code, the optional parsed `Retry-After` header, the
length of the body, and the slots `_parse_html` extracts from the body. -/
structure HttpResponse where
  status : Nat
  retryAfter : Option Nat
  htmlLen : Nat
  slots : List VisaSlot
deriving DecidableEq, Repr

/-- Observable waiting/request events of `fetch_slots`.  `nameError` marks an
attempt whose body raises `NameError` at bot.py line 368: `random` is
imported only inside `__aenter__` (line 318), so `random.uniform(1, 3)` is
undefined in `fetch_slots` scope; the exception is caught by the generic
handler (lines 429-432).  `humanDelay` is the randomized pre-retry delay the
spec describes for attempts after the first; in the source its computation is
what raises, so it is emitted only by the spec-modelled loop below. -/
inductive FetchEvent where
  | humanDelay (attempt : Nat)
  | nameError (attempt : Nat)
  | request (attempt : Nat)
  | wait403 (secs : Nat)
  | wait429 (secs : Nat)
  | waitTransient (secs : Nat)
deriving DecidableEq, Repr

def MAX_RETRIES : Nat := 3
def RETRY_DELAY : Nat := 5

/-- Embeds the body of `for attempt in range(MAX_RETRIES)` in
`VisaSlotsScraper.fetch_slots` (bot.py lines 357-435).  `script` gives the
response the server would return to the request of each attempt index;
`remaining` counts the loop iterations left (`MAX_RETRIES - attempt`); the
result pairs the trace of events with the returned slot list (`[]` when the
loop exhausts).

Every attempt with `attempt > 0` evaluates
`RETRY_DELAY * (attempt + 1) + random.uniform(1, 3)` (line 368) before its
request, and `random` is not in scope there (it is imported only inside
`__aenter__`, line 318), so the attempt raises `NameError` without issuing a
request; the generic `except Exception` handler (lines 429-432) logs it and
sleeps `RETRY_DELAY * (attempt + 1)` when attempts remain.  Only attempt 0
reaches the network and its status-specific branches (403/429/non-200/short
body/empty parse). -/
def fetchAttempt (script : Nat → HttpResponse) : Nat → Nat → List FetchEvent × List VisaSlot
  | _, 0 => ([], [])
  | attempt, remaining + 1 =>
    if attempt > 0 then
      let ev := [FetchEvent.nameError attempt]
      if attempt < MAX_RETRIES - 1 then
        let rest := fetchAttempt script (attempt + 1) remaining
        (ev ++ [FetchEvent.waitTransient (RETRY_DELAY * (attempt + 1))] ++ rest.1, rest.2)
      else (ev, [])
    else
      let ev := [FetchEvent.request attempt]
      let r := script attempt
      if r.status == 403 then
        if attempt < MAX_RETRIES - 1 then
          let rest := fetchAttempt script (attempt + 1) remaining
          (ev ++ [FetchEvent.wait403 (RETRY_DELAY * (attempt + 2) * 3)] ++ rest.1, rest.2)
        else (ev, [])
      else if r.status == 429 then
        let rest := fetchAttempt script (attempt + 1) remaining
        (ev ++ [FetchEvent.wait429 (r.retryAfter.getD 60)] ++ rest.1, rest.2)
      else if r.status != 200 then
        if attempt < MAX_RETRIES - 1 then
          let rest := fetchAttempt script (attempt + 1) remaining
          (ev ++ [FetchEvent.waitTransient (RETRY_DELAY * (attempt + 1))] ++ rest.1, rest.2)
        else (ev, [])
      else if r.htmlLen < 100 && attempt < MAX_RETRIES - 1 then
        let rest := fetchAttempt script (attempt + 1) remaining
        (ev ++ [FetchEvent.waitTransient (RETRY_DELAY * (attempt + 1))] ++ rest.1, rest.2)
      else if r.slots.isEmpty && attempt < MAX_RETRIES - 1 then
        let rest := fetchAttempt script (attempt + 1) remaining
        (ev ++ rest.1, rest.2)
      else (ev, r.slots)

/-- Embeds `VisaSlotsScraper.fetch_slots` (bot.py lines 357-435): run the
attempt loop from attempt 0 with the full `MAX_RETRIES` budget. -/
def fetch_slots (script : Nat → HttpResponse) : List FetchEvent × List VisaSlot :=
  fetchAttempt script 0 MAX_RETRIES

/-- Modelled from the spec sentence "HTTP 429: honor a server-supplied
retry-after duration if present, else a fixed fallback (60s), then retry
without counting against the normal retry budget": the same loop as
`fetchAttempt`, except that a 429 retry leaves the attempt counter
unchanged.  `reqIdx` numbers the requests actually issued (each consumes a
script entry) and `fuel` bounds the total number of requests so the model is
total; this definition exists only to compare the spec reading against the
source behavior. -/
def fetchAttemptSpecModel (script : Nat → HttpResponse) :
    Nat → Nat → Nat → List FetchEvent × List VisaSlot
  | _, _, 0 => ([], [])
  | reqIdx, attempt, fuel + 1 =>
    let pre : List FetchEvent :=
      if reqIdx > 0 then [FetchEvent.humanDelay attempt] else []
    let ev := pre ++ [FetchEvent.request reqIdx]
    let r := script reqIdx
    if r.status == 403 then
      if attempt < MAX_RETRIES - 1 then
        let rest := fetchAttemptSpecModel script (reqIdx + 1) (attempt + 1) fuel
        (ev ++ [FetchEvent.wait403 (RETRY_DELAY * (attempt + 2) * 3)] ++ rest.1, rest.2)
      else (ev, [])
    else if r.status == 429 then
      let rest := fetchAttemptSpecModel script (reqIdx + 1) attempt fuel
      (ev ++ [FetchEvent.wait429 (r.retryAfter.getD 60)] ++ rest.1, rest.2)
    else if r.status != 200 then
      if attempt < MAX_RETRIES - 1 then
        let rest := fetchAttemptSpecModel script (reqIdx + 1) (attempt + 1) fuel
        (ev ++ [FetchEvent.waitTransient (RETRY_DELAY * (attempt + 1))] ++ rest.1, rest.2)
      else (ev, [])
    else if r.htmlLen < 100 && attempt < MAX_RETRIES - 1 then
      let rest := fetchAttemptSpecModel script (reqIdx + 1) (attempt + 1) fuel
      (ev ++ [FetchEvent.waitTransient (RETRY_DELAY * (attempt + 1))] ++ rest.1, rest.2)
    else if r.slots.isEmpty && attempt < MAX_RETRIES - 1 then
      let rest := fetchAttemptSpecModel script (reqIdx + 1) (attempt + 1) fuel
      (ev ++ rest.1, rest.2)
    else (ev, r.slots)

/-! ### Concrete data used by scenario theorems and witnesses -/

/-- Row 1 of end-to-end scenario A. -/
def slotM : VisaSlot :=
  ⟨"MUMBAI VAC", "B1/B2", "2025-01-01 10:00", "2025-06-01", "3"⟩

/-- Row 2 of end-to-end scenario A (not available). -/
def slotC : VisaSlot :=
  ⟨"CHENNAI VAC", "B1/B2", "2025-01-01 10:00", "N/A", "0"⟩

/-- The scenario-A subscriber preferences. -/
def prefsA : UserPreferences :=
  { visa_type := some "B1", consulate_city := some "ALL",
    consulate_type := some "VAC", interval := some 300, year_filter := none }

/-- A server that would answer the first request with 429, the next two with
403, and any further request with a successful 200 carrying one slot. -/
def script429 : Nat → HttpResponse := fun i =>
  if i == 0 then ⟨429, some 7, 0, []⟩
  else if i ≤ 2 then ⟨403, none, 0, []⟩
  else ⟨200, none, 500, [slotM]⟩

/-- A server that would answer every request with 403. -/
def script403 : Nat → HttpResponse := fun _ => ⟨403, none, 0, []⟩

/-! ### Helper lemmas -/

/-- `lastN` keeps at most `n` entries. -/
theorem lastN_length_le (n : Nat) (l : List String) : (lastN n l).length ≤ n := by
  simp only [lastN, List.length_drop]
  omega

/-- `lastN` is a suffix of its input: truncation drops from the front. -/
theorem lastN_suffix (n : Nat) (l : List String) : (lastN n l).IsSuffix l :=
  List.drop_suffix _ _

/-- One dedup step keeps the history within the 50-entry bound. -/
theorem dedupStep_length_le (h : List String) (k : String) (hb : h.length ≤ 50) :
    ((dedupStep h k).2).length ≤ 50 := by
  unfold dedupStep
  by_cases hc : k ∈ h
  · simpa [hc] using hb
  · simpa [hc] using lastN_length_le 50 (h ++ [k])

/-- Folding dedup steps over any key sequence keeps the bound. -/
theorem dedupFoldl_length_le (keys : List String) (h : List String) (hb : h.length ≤ 50) :
    ((keys.foldl (fun acc k => (dedupStep acc k).2) h)).length ≤ 50 := by
  induction keys generalizing h with
  | nil => simpa using hb
  | cons k rest ih => exact ih _ (dedupStep_length_le h k hb)

/-! ### Claim theorems -/

/-- C7: `is_available` implies the slot count is not the string "0" and the
earliest date is neither empty nor "N/A"; moreover `is_available` holds
exactly when the slot count is not the zero sentinel and the earliest date
is none of the absent sentinels used by the source
("N/A", "", "No Appointments Available"). -/
theorem is_available_characterization (r : VisaSlot) :
    (r.is_available = true →
      r.slots_available ≠ "0" ∧ r.earliest_date ≠ "" ∧ r.earliest_date ≠ "N/A")
    ∧ (r.is_available = true ↔
      (r.slots_available ≠ "0" ∧
        r.earliest_date ∉ (["N/A", "", "No Appointments Available"] : List String))) := by
  have hiff : r.is_available = true ↔
      (r.slots_available ≠ "0" ∧
        r.earliest_date ∉ (["N/A", "", "No Appointments Available"] : List String)) := by
    simp [VisaSlot.is_available]
  refine ⟨?_, hiff⟩
  intro hav
  have h2 := hiff.mp hav
  simp only [List.mem_cons, List.mem_singleton, not_or] at h2
  exact ⟨h2.1, h2.2.2.1, h2.2.1⟩

/-- Closed instance of `is_available_characterization` at the scenario-A
Mumbai slot, with its hypothesis discharged concretely. -/
theorem is_available_characterization_witness :
    slotM.is_available = true ∧
      slotM.slots_available ≠ "0" ∧ slotM.earliest_date ≠ "" ∧ slotM.earliest_date ≠ "N/A" :=
  ⟨by decide, (is_available_characterization slotM).1 (by decide)⟩

/-- C8: converting a preference record to its dictionary form and back yields
the same record in every field. -/
theorem pref_dict_roundtrip (p : UserPreferences) :
    UserPreferences.from_dict (UserPreferences.to_dict p) = p := rfl

/-- C3: on the two scenario-A rows with scenario-A preferences, the filter
returns exactly the Mumbai row as matching and nothing as alternative; the
Chennai row is excluded from both lists because it is not available. -/
theorem filter_scenarioA :
    filter_slots [slotM, slotC] prefsA = ([slotM], [])
    ∧ slotC.is_available = false := by decide

/-- C1: the dedup key of the Mumbai slot with date 2025-03-01 is
"MUMBAI VAC_2025-03-01"; a first occurrence on an empty history is reported
new and appended; the same key on the next cycle is reported as a repeat;
the history produced by any sequence of appended keys starting empty never
exceeds 50 entries; and truncation drops oldest entries first (the updated
history is a suffix of the appended history). -/
theorem dedup_tracker_behavior :
    slot_key ⟨"MUMBAI VAC", "B1/B2", "2025-01-01 10:00", "2025-03-01", "3"⟩
      = "MUMBAI VAC_2025-03-01"
    ∧ dedupStep [] "MUMBAI VAC_2025-03-01" = (true, ["MUMBAI VAC_2025-03-01"])
    ∧ dedupStep ["MUMBAI VAC_2025-03-01"] "MUMBAI VAC_2025-03-01"
        = (false, ["MUMBAI VAC_2025-03-01"])
    ∧ (∀ keys : List String,
        ((keys.foldl (fun h k => (dedupStep h k).2) []).length ≤ 50))
    ∧ (∀ (h : List String) (k : String),
        ((dedupStep h k).2).IsSuffix
          (if (dedupStep h k).1 then h ++ [k] else h)) := by
  refine ⟨by decide, by decide, by decide, ?_, ?_⟩
  · intro keys
    exact dedupFoldl_length_le keys [] (by simp)
  · intro h k
    unfold dedupStep
    by_cases hc : k ∈ h
    · simp [hc]
    · simpa [hc] using lastN_suffix 50 (h ++ [k])

/-- Truncation preserves distinctness of history entries. -/
theorem lastN_nodup (n : Nat) (l : List String) (hl : l.Nodup) : (lastN n l).Nodup :=
  List.Nodup.sublist (List.drop_sublist _ _) hl

/-- One dedup step preserves distinctness of history entries. -/
theorem dedupStep_nodup (h : List String) (k : String) (hn : h.Nodup) :
    ((dedupStep h k).2).Nodup := by
  unfold dedupStep
  by_cases hc : k ∈ h
  · simpa [hc] using hn
  · have happ : (h ++ [k]).Nodup := by
      simp [List.nodup_append, hn, List.disjoint_singleton, hc]
    simpa [hc] using lastN_nodup 50 _ happ

/-- C9: a matching slot whose dedup key is already recorded leaves the
notified-slot history entirely unchanged, and any number of per-cycle dedup
updates preserves distinctness of the history entries. -/
theorem dedup_repeat_unchanged :
    (∀ (h : List String) (k : String), k ∈ h → dedupStep h k = (false, h))
    ∧ (∀ (keys : List String) (h : List String), h.Nodup →
        ((keys.foldl (fun acc k => (dedupStep acc k).2) h)).Nodup) := by
  constructor
  · intro h k hk
    simp [dedupStep, hk]
  · intro keys
    induction keys with
    | nil => intro h hn; simpa using hn
    | cons k rest ih =>
      intro h hn
      exact ih _ (dedupStep_nodup h k hn)

/-- Closed instance of `dedup_repeat_unchanged` with hypotheses discharged
at a concrete history and key sequence. -/
theorem dedup_repeat_unchanged_witness :
    dedupStep ["CHENNAI VAC_2025-04-01"] "CHENNAI VAC_2025-04-01"
        = (false, ["CHENNAI VAC_2025-04-01"])
    ∧ ((["CHENNAI VAC_2025-04-01", "MUMBAI VAC_2025-05-02"].foldl
        (fun acc k => (dedupStep acc k).2) ["CHENNAI VAC_2025-04-01"])).Nodup :=
  ⟨dedup_repeat_unchanged.1 _ _ (by decide),
   dedup_repeat_unchanged.2 _ _ (by decide)⟩

/-- Any slot appearing in either output of `filter_slots` is available. -/
theorem mem_filter_slots_available {s : VisaSlot} {slots : List VisaSlot}
    {p : UserPreferences}
    (hs : s ∈ (filter_slots slots p).1 ∨ s ∈ (filter_slots slots p).2) :
    s.is_available = true := by
  rcases hs with h | h <;>
  · simp only [filter_slots, List.mem_filter, Bool.and_eq_true] at h
    exact h.2.1

/-- C10: a non-empty year filter never excludes a sentinel-date slot by
itself (`year_matches` is true on "N/A", "" and an absent date); a
sentinel-date slot is excluded from both outputs of the filter by the
separate availability check. -/
theorem year_filter_sentinel_behavior (yf : List String) (hyf : yf ≠ []) :
    (year_matches (some "N/A") (some yf) = true
      ∧ year_matches (some "") (some yf) = true
      ∧ year_matches none (some yf) = true)
    ∧ (∀ (p : UserPreferences) (slots : List VisaSlot) (s : VisaSlot),
        s.earliest_date = "N/A" ∨ s.earliest_date = "" →
        s ∉ (filter_slots slots p).1 ∧ s ∉ (filter_slots slots p).2) := by
  constructor
  · refine ⟨?_, ?_, ?_⟩ <;> simp [year_matches, hyf]
  · intro p slots s hsent
    have hnav : s.is_available = false := by
      rcases hsent with h | h <;> simp [VisaSlot.is_available, h]
    constructor <;> intro hmem
    · exact absurd (mem_filter_slots_available (Or.inl hmem)) (by simp [hnav])
    · exact absurd (mem_filter_slots_available (Or.inr hmem)) (by simp [hnav])

/-- Closed instance of `year_filter_sentinel_behavior` at a concrete year
filter and the scenario-A Chennai slot. -/
theorem year_filter_sentinel_behavior_witness :
    year_matches (some "N/A") (some ["2025"]) = true
    ∧ slotC ∉ (filter_slots [slotM, slotC] prefsA).1
    ∧ slotC ∉ (filter_slots [slotM, slotC] prefsA).2 :=
  ⟨(year_filter_sentinel_behavior ["2025"] (by decide)).1.1,
   ((year_filter_sentinel_behavior ["2025"] (by decide)).2 prefsA [slotM, slotC]
      slotC (Or.inl rfl)).1,
   ((year_filter_sentinel_behavior ["2025"] (by decide)).2 prefsA [slotM, slotC]
      slotC (Or.inl rfl)).2⟩

/-- The bucketing loop is a pair of filters over the input. -/
theorem partitionSlots_eq_filter (l : List VisaSlot) (p : UserPreferences) :
    partitionSlots l p =
      (l.filter (fun s => visaOk p s && bucketMatches p s),
       l.filter (fun s => visaOk p s && !bucketMatches p s)) := by
  induction l with
  | nil => rfl
  | cons s rest ih =>
    by_cases hv : visaOk p s
    · by_cases hb : bucketMatches p s <;>
        simp [partitionSlots, ih, List.filter, hv, hb]
    · simp [partitionSlots, ih, List.filter, hv]

/-- C4: the bucketing phase of the filter partitions its input: a slot that
passes the visa-type check lands in exactly one of the two buckets, and a
slot that fails it lands in neither. -/
theorem filter_partition (l : List VisaSlot) (p : UserPreferences) (s : VisaSlot)
    (hs : s ∈ l) (_hc : p.is_complete = true) :
    (visaOk p s = true →
      (s ∈ (partitionSlots l p).1 ∧ s ∉ (partitionSlots l p).2)
      ∨ (s ∉ (partitionSlots l p).1 ∧ s ∈ (partitionSlots l p).2))
    ∧ (visaOk p s = false →
      s ∉ (partitionSlots l p).1 ∧ s ∉ (partitionSlots l p).2) := by
  rw [partitionSlots_eq_filter]
  constructor
  · intro hv
    by_cases hb : bucketMatches p s
    · left
      refine ⟨List.mem_filter.mpr ⟨hs, by simp [hv, hb]⟩, ?_⟩
      intro hmem
      have := (List.mem_filter.mp hmem).2
      simp [hv, hb] at this
    · right
      refine ⟨?_, List.mem_filter.mpr ⟨hs, by simp [hv, hb]⟩⟩
      intro hmem
      have := (List.mem_filter.mp hmem).2
      simp [hv, hb] at this
  · intro hv
    constructor <;> intro hmem <;>
      · have := (List.mem_filter.mp hmem).2
        simp [hv] at this

/-- Closed instance of `filter_partition` at the scenario-A data. -/
theorem filter_partition_witness :
    (slotM ∈ (partitionSlots [slotM, slotC] prefsA).1
      ∧ slotM ∉ (partitionSlots [slotM, slotC] prefsA).2)
    ∨ (slotM ∉ (partitionSlots [slotM, slotC] prefsA).1
      ∧ slotM ∈ (partitionSlots [slotM, slotC] prefsA).2) :=
  (filter_partition [slotM, slotC] prefsA slotM (by decide) (by decide)).1 (by decide)

/-- C6: evaluation of the fetch loop against a server that would answer
every request with 403.  Only the first attempt issues a request: it waits
the extended backoff `RETRY_DELAY * (0 + 2) * 3 = 30` once, then attempts 1
and 2 raise `NameError` before requesting (with the generic handler's 10 s
sleep after attempt 1), and the loop returns the empty slot list without
raising.  The claimed second extended backoff of 45 s and the second and
third requests never occur, contradicting the claim's backoff schedule
(while its "returns empty rather than error" half does hold). -/
theorem fetch_403_actual :
    fetch_slots script403 =
      ([FetchEvent.request 0, FetchEvent.wait403 30,
        FetchEvent.nameError 1, FetchEvent.waitTransient 10,
        FetchEvent.nameError 2], [])
    ∧ FetchEvent.request 1 ∉ (fetch_slots script403).1
    ∧ FetchEvent.wait403 45 ∉ (fetch_slots script403).1 := by decide

/-- C5 counterexample: after a 429 on the first attempt the fetch never
issues a retry request at all, and the retry iteration does count against
the 3-attempt budget.  On a server that would answer 429 and then two 403s
followed by a successful 200 carrying a slot, the source loop issues exactly
one request (the 429 one), then attempts 1 and 2 raise `NameError` before
requesting and the loop returns the empty list; the spec-modelled loop, in
which the 429 retry is a real request and is budget-free, would reach the
200 response and return its slot. -/
theorem fetch_429_counterexample :
    fetch_slots script429 =
      ([FetchEvent.request 0, FetchEvent.wait429 7,
        FetchEvent.nameError 1, FetchEvent.waitTransient 10,
        FetchEvent.nameError 2], [])
    ∧ FetchEvent.request 1 ∉ (fetch_slots script429).1
    ∧ (fetchAttemptSpecModel script429 0 0 10).2 = [slotM]
    ∧ (fetch_slots script429).2 ≠ (fetchAttemptSpecModel script429 0 0 10).2 := by
  decide

/-- C5 (amended): when the first fetch attempt receives HTTP 429, the fetch
waits the server-supplied Retry-After duration when present, else the fixed
60-second fallback, and proceeds to the next loop iteration — which counts
against the 3-attempt budget and raises `NameError` while computing the
pre-retry delay (`random` is imported only inside `__aenter__`), so no retry
request is ever issued and the fetch returns the empty slot list once the
budget is exhausted. -/
theorem fetch_429_actual (script : Nat → HttpResponse)
    (h : (script 0).status = 429) :
    fetch_slots script =
      ([FetchEvent.request 0, FetchEvent.wait429 ((script 0).retryAfter.getD 60),
        FetchEvent.nameError 1, FetchEvent.waitTransient 10,
        FetchEvent.nameError 2], []) := by
  simp [fetch_slots, MAX_RETRIES, RETRY_DELAY, fetchAttempt, h]

/-- Closed instance of `fetch_429_actual` at the concrete 429 script. -/
theorem fetch_429_actual_witness :
    fetch_slots script429 =
      ([FetchEvent.request 0, FetchEvent.wait429 ((script429 0).retryAfter.getD 60),
        FetchEvent.nameError 1, FetchEvent.waitTransient 10,
        FetchEvent.nameError 2], []) :=
  fetch_429_actual script429 rfl

/-- The notify loop never touches `no_slot_alert_sent`. -/
theorem foldl_dedupFold_flag (l : List VisaSlot)
    (st : UserPreferences × List (VisaSlot × Bool)) :
    ((l.foldl dedupFold st).1).no_slot_alert_sent = st.1.no_slot_alert_sent := by
  induction l generalizing st with
  | nil => rfl
  | cons s rest ih =>
    rw [List.foldl_cons, ih]
    rfl

/-- A cycle whose fetch is non-empty but filters to no matching and no
alternative slots sends the "no slots" notice exactly when the gate is
clear, and sets the gate. -/
theorem check_slots_empty_yield (p : UserPreferences) (s : List VisaSlot)
    (hs : s ≠ []) (hf : filter_slots s p = ([], [])) :
    check_slots p s =
      if p.no_slot_alert_sent then ⟨false, [], false, false, p⟩
      else ⟨false, [], false, true, { p with no_slot_alert_sent := true }⟩ := by
  have hse : s.isEmpty = false := by simpa [List.isEmpty_iff] using hs
  cases hflag : p.no_slot_alert_sent <;> simp [check_slots, hse, hf, hflag]

/-- A cycle with a non-empty matching list clears `no_slot_alert_sent`. -/
theorem check_slots_matching_flag (p : UserPreferences) (s : List VisaSlot)
    (hm : (filter_slots s p).1 ≠ []) :
    (check_slots p s).prefs.no_slot_alert_sent = false := by
  have hs : s ≠ [] := by
    intro he
    rw [he] at hm
    exact hm rfl
  have hse : s.isEmpty = false := by simpa [List.isEmpty_iff] using hs
  have hme : (filter_slots s p).1.isEmpty = false := by
    simpa [List.isEmpty_iff] using hm
  simp [check_slots, hse, hme, foldl_dedupFold_flag]

/-- C2: starting with a clear gate, two consecutive cycles that both filter
to empty matching and empty alternatives send exactly one "no slots" notice
(the second sends nothing); a later cycle with a non-empty matching list
clears the gate, so a subsequent empty cycle notifies again. -/
theorem no_slot_alert_gating
    (p0 : UserPreferences) (s1 s2 s3 s4 : List VisaSlot)
    (hflag : p0.no_slot_alert_sent = false)
    (h1 : s1 ≠ []) (hf1 : filter_slots s1 p0 = ([], []))
    (h2 : s2 ≠ [])
    (hf2 : filter_slots s2 (check_slots p0 s1).prefs = ([], []))
    (hf3 : (filter_slots s3
        (check_slots (check_slots p0 s1).prefs s2).prefs).1 ≠ [])
    (h4 : s4 ≠ [])
    (hf4 : filter_slots s4
        (check_slots (check_slots (check_slots p0 s1).prefs s2).prefs
          s3).prefs = ([], [])) :
    (check_slots p0 s1).sentNoSlots = true
    ∧ (check_slots (check_slots p0 s1).prefs s2).sentNoSlots = false
    ∧ (check_slots (check_slots (check_slots p0 s1).prefs s2).prefs
        s3).prefs.no_slot_alert_sent = false
    ∧ (check_slots (check_slots (check_slots (check_slots p0 s1).prefs
        s2).prefs s3).prefs s4).sentNoSlots = true := by
  have e1 : check_slots p0 s1 =
      ⟨false, [], false, true, { p0 with no_slot_alert_sent := true }⟩ := by
    rw [check_slots_empty_yield p0 s1 h1 hf1, hflag]
    simp
  have e2 : check_slots (check_slots p0 s1).prefs s2 =
      ⟨false, [], false, false, (check_slots p0 s1).prefs⟩ := by
    rw [check_slots_empty_yield _ s2 h2 hf2, e1]
    simp
  have e3 : (check_slots (check_slots (check_slots p0 s1).prefs s2).prefs
      s3).prefs.no_slot_alert_sent = false :=
    check_slots_matching_flag _ s3 hf3
  have h4ne : s4 ≠ [] := h4
  have e4 : (check_slots (check_slots (check_slots (check_slots p0 s1).prefs
      s2).prefs s3).prefs s4).sentNoSlots = true := by
    rw [check_slots_empty_yield _ s4 h4ne hf4, e3]
    simp
  refine ⟨by rw [e1], by rw [e2], e3, e4⟩

/-- Closed instance of `no_slot_alert_gating`: scenario-A preferences, two
cycles seeing only the unavailable Chennai row, then a cycle seeing the
Mumbai row, then another Chennai-only cycle. -/
theorem no_slot_alert_gating_witness :
    (check_slots prefsA [slotC]).sentNoSlots = true
    ∧ (check_slots (check_slots prefsA [slotC]).prefs [slotC]).sentNoSlots = false
    ∧ (check_slots (check_slots (check_slots prefsA [slotC]).prefs
        [slotC]).prefs [slotM]).prefs.no_slot_alert_sent = false
    ∧ (check_slots (check_slots (check_slots (check_slots prefsA
        [slotC]).prefs [slotC]).prefs [slotM]).prefs [slotC]).sentNoSlots = true :=
  no_slot_alert_gating prefsA [slotC] [slotC] [slotM] [slotC]
    (by decide) (by decide) (by decide) (by decide) (by decide) (by decide)
    (by decide) (by decide)

end VisaBot
